import Mathlib

/-
Shallow embedding of the pipeline-supervision core of calixteman/servo:
  - src/components/main/pipeline.rs  (Pipeline, CompositionPipeline and their
    operations: create, with_script, new, load, grant_paint_permission,
    revoke_paint_permission, exit, to_sendable)
  - src/components/net/data_loader.rs  (the data-URI loader)

Channels are modelled by numeric endpoint identifiers; cloning a sender
yields a handle to the same endpoint, so clone is the identity on the
embedded sender values.  Effectful operations are modelled as pure
functions that, besides their result, return the ordered list of channel
events (sends and receives) the Rust function performs, parameterised by
the facts the runtime would supply (whether a receiver is still alive,
whether a shutdown acknowledgment arrives as a signal or as closure).
-/

/-- Identifier of a browsing context, from servo_msg::constellation_msg. -/
structure PipelineId where
  index : Nat
deriving DecidableEq, Repr

/-- Identifier of a nested frame, from servo_msg::constellation_msg. -/
structure SubpageId where
  index : Nat
deriving DecidableEq, Repr

/-- The failure-attribution record built in both construction protocols. -/
structure Failure where
  pipeline_id : PipelineId
  subpage_id : Option SubpageId
deriving DecidableEq, Repr

/-- A URL as the pipeline and the data loader see it: the parsed scheme and
the remaining path, each a character sequence. -/
structure Url where
  scheme : List Char
  path : List Char
deriving DecidableEq, Repr

/-- Sender endpoint of the script task channel (newtype ScriptChan over a
Sender in the source); `chan` is the endpoint identifier, and cloning a
sender keeps the identifier. -/
structure ScriptChan where
  chan : Nat
deriving DecidableEq, Repr

/-- Sender endpoint of the layout task channel (LayoutChan in the source). -/
structure LayoutChan where
  chan : Nat
deriving DecidableEq, Repr

/-- Sender endpoint of the render task channel (RenderChan in the source). -/
structure RenderChan where
  chan : Nat
deriving DecidableEq, Repr

/-- The NewLayoutInfo record sent to an existing script task by
Pipeline::with_script. -/
structure NewLayoutInfo where
  old_pipeline_id : PipelineId
  new_pipeline_id : PipelineId
  subpage_id : SubpageId
  layout_chan : LayoutChan
deriving DecidableEq, Repr

/-- Messages the pipeline sends on the script channel (the constructors of
script_task's message type that pipeline.rs uses). -/
inductive ScriptMsg where
  | LoadMsg (id : PipelineId) (url : Url)
  | AttachLayoutMsg (info : NewLayoutInfo)
  | ExitPipelineMsg (id : PipelineId)
deriving DecidableEq, Repr

/-- Messages the pipeline sends on the render channel. -/
inductive RenderMsg where
  | PaintPermissionGranted
  | PaintPermissionRevoked
deriving DecidableEq, Repr

/-- The supervisor record, field for field as in pipeline.rs; the two
shutdown ports are receiver endpoint identifiers. -/
structure Pipeline where
  id : PipelineId
  subpage_id : Option SubpageId
  script_chan : ScriptChan
  layout_chan : LayoutChan
  render_chan : RenderChan
  layout_shutdown_port : Nat
  render_shutdown_port : Nat
  url : Url
deriving DecidableEq, Repr

/-- The composition projection, field for field as in pipeline.rs. -/
structure CompositionPipeline where
  id : PipelineId
  script_chan : ScriptChan
  render_chan : RenderChan
deriving DecidableEq, Repr

/-- How a shutdown acknowledgment arrives at a receiver: as an explicit
signal, or as closure of the channel (the sender was dropped). -/
inductive AckOutcome where
  | signaled
  | closed
deriving DecidableEq, Repr

/-- Result of Receiver::recv_opt on a receiver whose eventual outcome is
known: an explicit signal yields the value, closure yields nothing; either
way the call returns. -/
def recv_opt (a : AckOutcome) : Option Unit :=
  match a with
  | .signaled => some ()
  | .closed => none

/-- One channel event performed by a runtime operation of Pipeline, in the
order the Rust code performs them.  A trySend records whether the
non-blocking send was accepted by a live receiver; recvOpt records the
receiver endpoint read and the value obtained. -/
inductive RuntimeEvent where
  | scriptSend (c : ScriptChan) (m : ScriptMsg)
  | scriptTrySend (c : ScriptChan) (m : ScriptMsg) (accepted : Bool)
  | layoutSend (c : LayoutChan)
  | renderTrySend (c : RenderChan) (m : RenderMsg) (accepted : Bool)
  | recvOpt (port : Nat) (result : Option Unit)
deriving DecidableEq, Repr

/-- Sender::try_send of the channel library: never blocks and never fails
the task; reports whether a live receiver accepted the message. -/
def try_send (receiverAlive : Bool) : Bool :=
  receiverAlive

/-- Sender::send of the channel library (the blocking primitive used by
Pipeline::load): delivers the message when the receiving task is alive and
fails the sending task otherwise.  The task failure is modelled as
Except.error carrying the failure text. -/
def channelSend (receiverAlive : Bool) (ev : RuntimeEvent) :
    Except (List Char) (List RuntimeEvent) :=
  if receiverAlive then .ok [ev] else .error "sending on a closed channel".data

/-- Pipeline::new, the plain record constructor. -/
def Pipeline.new (id : PipelineId) (subpage_id : Option SubpageId)
    (script_chan : ScriptChan) (layout_chan : LayoutChan)
    (render_chan : RenderChan) (layout_shutdown_port : Nat)
    (render_shutdown_port : Nat) (url : Url) : Pipeline :=
  { id := id
    subpage_id := subpage_id
    script_chan := script_chan
    layout_chan := layout_chan
    render_chan := render_chan
    layout_shutdown_port := layout_shutdown_port
    render_shutdown_port := render_shutdown_port
    url := url }

/-- Pipeline::load: one blocking send of LoadMsg(self.id, self.url) on the
script sender; `scriptAlive` says whether the script task still holds its
receiver. -/
def Pipeline.load (self : Pipeline) (scriptAlive : Bool) :
    Except (List Char) (List RuntimeEvent) :=
  channelSend scriptAlive
    (.scriptSend self.script_chan (.LoadMsg self.id self.url))

/-- Pipeline::grant_paint_permission: one try_send of
PaintPermissionGranted on the render sender. -/
def Pipeline.grant_paint_permission (self : Pipeline) (renderAlive : Bool) :
    List RuntimeEvent :=
  [.renderTrySend self.render_chan .PaintPermissionGranted
    (try_send renderAlive)]

/-- Pipeline::revoke_paint_permission: one try_send of
PaintPermissionRevoked on the render sender (the debug! line is logging
only). -/
def Pipeline.revoke_paint_permission (self : Pipeline) (renderAlive : Bool) :
    List RuntimeEvent :=
  [.renderTrySend self.render_chan .PaintPermissionRevoked
    (try_send renderAlive)]

/-- Pipeline::exit: try_send ExitPipelineMsg(self.id) on the script sender;
if accepted, recv_opt the render shutdown port and then the layout shutdown
port, each once; if rejected, return at once.  The method takes the
pipeline by shared reference, so the record is returned unchanged together
with the event trace.  `renderAck` and `layoutAck` are the outcomes the two
shutdown receivers would deliver when read. -/
def Pipeline.exit (self : Pipeline) (scriptAlive : Bool)
    (renderAck layoutAck : AckOutcome) : Pipeline × List RuntimeEvent :=
  let accepted := try_send scriptAlive
  if accepted then
    (self,
      [.scriptTrySend self.script_chan (.ExitPipelineMsg self.id) accepted,
       .recvOpt self.render_shutdown_port (recv_opt renderAck),
       .recvOpt self.layout_shutdown_port (recv_opt layoutAck)])
  else
    (self,
      [.scriptTrySend self.script_chan (.ExitPipelineMsg self.id) accepted])

/-- Pipeline::to_sendable: a CompositionPipeline from clones of id,
script_chan and render_chan (clone of an id or a sender is the identity in
this model). -/
def Pipeline.to_sendable (self : Pipeline) : CompositionPipeline :=
  { id := self.id
    script_chan := self.script_chan
    render_chan := self.render_chan }

/-- Which channel pair a construction step allocates. -/
inductive ChanKind where
  | scriptK
  | layoutK
  | renderK
  | renderShutdownK
  | layoutShutdownK
deriving DecidableEq, Repr

/-- The three component task kinds the pipeline spawns. -/
inductive Component where
  | Script
  | Render
  | Layout
deriving DecidableEq, Repr

/-- One effect of a construction protocol, in source order: allocation of a
channel pair (returning endpoint `chanId`), the spawn of a component task,
or the AttachLayoutMsg send to an existing script task. -/
inductive BuildEvent where
  | alloc (k : ChanKind) (chanId : Nat)
  | spawn (c : Component)
  | sendAttach (onChan : Nat) (info : NewLayoutInfo)
deriving DecidableEq, Repr

/-- State threaded through a construction protocol: the next fresh channel
endpoint identifier and the events performed so far, oldest first. -/
structure BuildState where
  nextId : Nat
  events : List BuildEvent
deriving DecidableEq, Repr

/-- Allocate a fresh channel pair (ChanKind::new() or channel() in the
source); both endpoints share the returned identifier. -/
def allocChan (k : ChanKind) (s : BuildState) : Nat × BuildState :=
  (s.nextId,
    { nextId := s.nextId + 1, events := s.events ++ [.alloc k s.nextId] })

/-- Spawn one component task (ScriptTask::create, RenderTask::create or
LayoutTask::create in the source). -/
def spawnTask (c : Component) (s : BuildState) : BuildState :=
  { s with events := s.events ++ [.spawn c] }

/-- Pipeline::create, the fresh-pipeline protocol, effect for effect in
source order: allocate the script, layout and render channels, then the
render and layout shutdown channels, build the Pipeline record and the
Failure value, then spawn Script, then Render, then Layout.  Opaque
external handles (compositor, constellation, resource task, image cache,
profiler, options, window size) are passed through unmodelled. -/
def Pipeline.create (id : PipelineId) (subpage_id : Option SubpageId)
    (url : Url) (s : BuildState) : Pipeline × BuildState :=
  let (script_c, s) := allocChan .scriptK s
  let (layout_c, s) := allocChan .layoutK s
  let (render_c, s) := allocChan .renderK s
  let (render_shutdown_c, s) := allocChan .renderShutdownK s
  let (layout_shutdown_c, s) := allocChan .layoutShutdownK s
  let pipeline := Pipeline.new id subpage_id ⟨script_c⟩ ⟨layout_c⟩
    ⟨render_c⟩ layout_shutdown_c render_shutdown_c url
  let _failure : Failure := ⟨id, subpage_id⟩
  let s := spawnTask .Script s
  let s := spawnTask .Render s
  let s := spawnTask .Layout s
  (pipeline, s)

/-- Pipeline::with_script, the nested-frame protocol, effect for effect in
source order: allocate the layout and render channels, then the render and
layout shutdown channels, build the Failure value, spawn Render, then
Layout, send AttachLayoutMsg(NewLayoutInfo) on the existing script
pipeline's script sender, and build the Pipeline record around a clone of
that script sender. -/
def Pipeline.with_script (id : PipelineId) (subpage_id : SubpageId)
    (script_pipeline : Pipeline) (url : Url) (s : BuildState) :
    Pipeline × BuildState :=
  let (layout_c, s) := allocChan .layoutK s
  let (render_c, s) := allocChan .renderK s
  let (render_shutdown_c, s) := allocChan .renderShutdownK s
  let (layout_shutdown_c, s) := allocChan .layoutShutdownK s
  let _failure : Failure := ⟨id, some subpage_id⟩
  let s := spawnTask .Render s
  let s := spawnTask .Layout s
  let new_layout_info : NewLayoutInfo :=
    { old_pipeline_id := script_pipeline.id
      new_pipeline_id := id
      subpage_id := subpage_id
      layout_chan := ⟨layout_c⟩ }
  let s := { s with events := s.events ++
    [.sendAttach script_pipeline.script_chan.chan new_layout_info] }
  (Pipeline.new id (some subpage_id) script_pipeline.script_chan
    ⟨layout_c⟩ ⟨render_c⟩ layout_shutdown_c render_shutdown_c url, s)

/-- Whether a build event is a channel allocation. -/
def BuildEvent.isAlloc : BuildEvent → Bool
  | .alloc _ _ => true
  | _ => false

/-- Whether a build event is a component spawn. -/
def BuildEvent.isSpawn : BuildEvent → Bool
  | .spawn _ => true
  | _ => false

/-- Every channel allocation precedes every component spawn: after the
first spawn event no allocation occurs. -/
def allocsPrecedeSpawns (t : List BuildEvent) : Bool :=
  (t.dropWhile (fun e => !e.isSpawn)).all (fun e => !e.isAlloc)

/-- Position of the spawn of component `c` in a build trace. -/
def spawnIdx (c : Component) (t : List BuildEvent) : Option Nat :=
  t.findIdx? (fun e => decide (e = .spawn c))

/-- Whether component `a` is spawned strictly before component `b` in a
build trace (false when either is never spawned). -/
def spawnedBefore (a b : Component) (t : List BuildEvent) : Bool :=
  match spawnIdx a t, spawnIdx b t with
  | some i, some j => decide (i < j)
  | _, _ => false

namespace data_loader

/-- Modelled from the spec: the media-type value produced by the external
HTTP header parser (rust-http), which is outside the excerpt: a type and
subtype with a list of key=value parameters. -/
structure MediaType where
  type_ : List Char
  subtype : List Char
  parameters : List (List Char × List Char)
deriving DecidableEq, Repr

/-- Modelled from the spec: the Metadata record of the resource task
module, which is outside the excerpt; only the fields the loader scenarios
observe are kept (the final url, the content-type pair and the charset). -/
structure Metadata where
  final_url : Url
  content_type : Option (List Char × List Char)
  charset : Option (List Char)
deriving DecidableEq, Repr

/-- Modelled from the spec: Metadata::default(url) of the resource task
module starts with no content type and no charset. -/
def Metadata.default (url : Url) : Metadata :=
  { final_url := url, content_type := none, charset := none }

/-- Modelled from the spec: Metadata::set_content_type of the resource task
module records the media type's type/subtype pair as the content type and
the value of its "charset" parameter, when present, as the charset; a
missing media type leaves the metadata unchanged. -/
def Metadata.set_content_type (m : Metadata) (ct : Option MediaType) :
    Metadata :=
  match ct with
  | none => m
  | some mt =>
    { m with
      content_type := some (mt.type_, mt.subtype)
      charset :=
        match mt.parameters.find? (fun kv => kv.1 == "charset".data) with
        | some kv => some kv.2
        | none => m.charset }

/-- Split a character sequence at every occurrence of `sep`. -/
def splitOnChar (sep : Char) : List Char → List (List Char)
  | [] => [[]]
  | c :: cs =>
    match splitOnChar sep cs with
    | [] => if c = sep then [[], []] else [[c]]
    | seg :: segs => if c = sep then [] :: seg :: segs else (c :: seg) :: segs

/-- Modelled from the spec: the content-type parse performed by the
external HTTP library (from_stream_with_str), outside the excerpt.  The
text is split at every ';'; the first segment must be a type and a
non-empty subtype separated by one '/', the remaining segments contribute
the well-formed key=value parameters.  Any other shape parses to none. -/
def from_stream_with_str (s : List Char) : Option MediaType :=
  match splitOnChar ';' s with
  | [] => none
  | main :: params =>
    match splitOnChar '/' main with
    | [t, sub] =>
      if t = [] ∨ sub = [] then none
      else
        some
          { type_ := t
            subtype := sub
            parameters := params.filterMap (fun p =>
              match splitOnChar '=' p with
              | [k, v] => some (k, v)
              | _ => none) }
    | _ => none

/-- Value of one base64 alphabet character (standard and url-safe
alphabets, as the external serialize crate accepts). -/
def b64Digit (c : Char) : Option Nat :=
  if 'A' ≤ c ∧ c ≤ 'Z' then some (c.toNat - 65)
  else if 'a' ≤ c ∧ c ≤ 'z' then some (c.toNat - 97 + 26)
  else if '0' ≤ c ∧ c ≤ '9' then some (c.toNat - 48 + 52)
  else if c = '+' ∨ c = '-' then some 62
  else if c = '/' ∨ c = '_' then some 63
  else none

/-- Recombine 6-bit values into bytes, group of four at a time; a trailing
group of one is invalid, trailing groups of two or three yield one or two
bytes. -/
def groupsToBytes : List Nat → Option (List Nat)
  | [] => some []
  | [_] => none
  | [a, b] => some [a * 4 + b / 16]
  | [a, b, c] => some [a * 4 + b / 16, b % 16 * 16 + c / 4]
  | a :: b :: c :: d :: rest =>
    match groupsToBytes rest with
    | none => none
    | some tail =>
      some ((a * 4 + b / 16) :: (b % 16 * 16 + c / 4) :: (c % 4 * 64 + d) :: tail)

/-- Modelled from the spec: the base64 decoder of the external serialize
crate (FromBase64), outside the excerpt: carriage returns and newlines are
ignored, trailing '=' padding is stripped, every remaining character must
belong to the base64 alphabets, and the 6-bit values recombine into bytes;
anything else is an invalid encoding, reported as none. -/
def from_base64 (s : List Char) : Option (List Nat) :=
  let cleaned := (s.filter (fun c => !(c == '\r' || c == '\n')))
  let unpadded := (cleaned.reverse.dropWhile (fun c => c == '=')).reverse
  match unpadded.mapM b64Digit with
  | none => none
  | some ds => groupsToBytes ds

/-- Whether `s` ends with the character sequence `suf`
(str::ends_with in the source). -/
def listEndsWith (s suf : List Char) : Bool :=
  if suf.length ≤ s.length then
    s.drop (s.length - suf.length) == suf
  else false

/-- str::splitn(',', 1) collected into parts: none when the text has no
comma (one part), otherwise the text before the first comma and the whole
text after it (two parts). -/
def splitFirstComma : List Char → Option (List Char × List Char)
  | [] => none
  | c :: cs =>
    if c = ',' then some ([], cs)
    else
      match splitFirstComma cs with
      | none => none
      | some (a, b) => some (c :: a, b)

/-- Everything after the first comma of a character sequence (the whole
sequence maps to [] when it has no comma). -/
def afterFirstComma : List Char → List Char
  | [] => []
  | c :: cs => if c = ',' then cs else afterFirstComma cs

/-- Outcome carried by the terminal Done progress message. -/
inductive LoadResult where
  | ok
  | err (msg : List Char)
deriving DecidableEq, Repr

/-- One progress message sent on the loader's output channel. -/
inductive ProgressMsg where
  | Payload (data : List Nat)
  | Done (result : LoadResult)
deriving DecidableEq, Repr

/-- What the caller observes from one run of the loader: the metadata sent
by start_sending, then the ordered progress messages. -/
structure LoadResponse where
  metadata : Metadata
  progress : List ProgressMsg
deriving DecidableEq, Repr

/-- The data-URI loader, fn load of data_loader.rs, step for step: assert
the "data" scheme (a violated assertion is a fault, modelled as none);
split the path at the first comma, one part being an invalid data uri;
strip a trailing ";base64" off the content-type part; parse the content
type and record it in the metadata; then either decode the base64 payload
(a failed decode is a terminal error, a successful one a Payload followed
by Done ok) or emit the raw payload bytes followed by Done ok. -/
def load (url : Url) : Option LoadResponse :=
  if url.scheme = "data".data then
    let metadata := Metadata.default url
    match splitFirstComma url.path with
    | none =>
      some { metadata := metadata
             progress := [.Done (.err "invalid data uri".data)] }
    | some (ctPart, payloadPart) =>
      let (is_base64, ct_str) :=
        if listEndsWith ctPart ";base64".data then
          (true, ctPart.take (ctPart.length - 7))
        else (false, ctPart)
      let content_type := from_stream_with_str ct_str
      let metadata := metadata.set_content_type content_type
      if is_base64 then
        match from_base64 payloadPart with
        | none =>
          some { metadata := metadata
                 progress := [.Done (.err "non-base64 data uri".data)] }
        | some data =>
          some { metadata := metadata
                 progress := [.Payload data, .Done .ok] }
      else
        some { metadata := metadata
               progress := [.Payload (payloadPart.map Char.toNat),
                            .Done .ok] }
  else none

end data_loader

/-- Position of the first read of receiver endpoint `port` in a runtime
trace. -/
def recvIdx (port : Nat) (t : List RuntimeEvent) : Option Nat :=
  t.findIdx? (fun e =>
    match e with
    | .recvOpt q _ => q == port
    | _ => false)

/-- Whether receiver `a` is read strictly before receiver `b` in a runtime
trace (false when either is never read). -/
def readsBefore (a b : Nat) (t : List RuntimeEvent) : Bool :=
  match recvIdx a t, recvIdx b t with
  | some i, some j => decide (i < j)
  | _, _ => false

/-- How many times receiver endpoint `port` is read in a runtime trace. -/
def recvCount (port : Nat) (t : List RuntimeEvent) : Nat :=
  (t.filter (fun e =>
    match e with
    | .recvOpt q _ => q == port
    | _ => false)).length

/-- The messages a runtime trace sends or offers on script channels, with
their target endpoints, in order (blocking and non-blocking sends alike). -/
def scriptMsgs (t : List RuntimeEvent) : List (ScriptChan × ScriptMsg) :=
  t.filterMap (fun e =>
    match e with
    | .scriptSend c m => some (c, m)
    | .scriptTrySend c m _ => some (c, m)
    | _ => none)

/-- The messages a runtime trace offers on render channels, with their
target endpoints, in order. -/
def renderMsgs (t : List RuntimeEvent) : List (RenderChan × RenderMsg) :=
  t.filterMap (fun e =>
    match e with
    | .renderTrySend c m _ => some (c, m)
    | _ => none)

/-- How many sends a runtime trace performs on layout channels. -/
def layoutSendCount (t : List RuntimeEvent) : Nat :=
  (t.filter (fun e =>
    match e with
    | .layoutSend _ => true
    | _ => false)).length

/-- A concrete pipeline with distinct endpoints, used to instantiate the
general theorems. -/
def samplePipeline : Pipeline :=
  Pipeline.new ⟨0⟩ none ⟨7⟩ ⟨8⟩ ⟨9⟩ 10 11 ⟨"data".data, []⟩

/-- C1, as stated, is false on the code: on a live pipeline with distinct
shutdown endpoints, exit() reads the render shutdown-acknowledgment
receiver (position 1 of the trace) strictly before the layout one
(position 2), so the layout receiver is not read before the render one. -/
theorem exit_layout_before_render_false :
    recvIdx samplePipeline.layout_shutdown_port
        (samplePipeline.exit true .signaled .signaled).2 = some 2 ∧
    recvIdx samplePipeline.render_shutdown_port
        (samplePipeline.exit true .signaled .signaled).2 = some 1 ∧
    readsBefore samplePipeline.layout_shutdown_port
        samplePipeline.render_shutdown_port
        (samplePipeline.exit true .signaled .signaled).2 = false := by
  decide

/-- C1 (amended): for every pipeline whose script channel accepts the exit
message, exit() reads the render shutdown-acknowledgment receiver strictly
before the layout one, each exactly once, and completes with the same
three-event trace whether each acknowledgment arrives as an explicit
signal or as channel closure. -/
theorem exit_reads_render_before_layout (p : Pipeline)
    (h : p.render_shutdown_port ≠ p.layout_shutdown_port)
    (ra la : AckOutcome) :
    readsBefore p.render_shutdown_port p.layout_shutdown_port
        (p.exit true ra la).2 = true ∧
    recvCount p.render_shutdown_port (p.exit true ra la).2 = 1 ∧
    recvCount p.layout_shutdown_port (p.exit true ra la).2 = 1 ∧
    (p.exit true ra la).2 =
      [.scriptTrySend p.script_chan (.ExitPipelineMsg p.id) true,
       .recvOpt p.render_shutdown_port (recv_opt ra),
       .recvOpt p.layout_shutdown_port (recv_opt la)] := by
  have h' : (p.layout_shutdown_port == p.render_shutdown_port) = false := by
    simp [Ne.symm h]
  have h'' : (p.render_shutdown_port == p.layout_shutdown_port) = false := by
    simp [h]
  refine ⟨?_, ?_, ?_, rfl⟩ <;>
    simp [Pipeline.exit, try_send, readsBefore, recvIdx, recvCount,
      List.findIdx?, h', h'']

/-- Witness for the amended C1 at a concrete pipeline with distinct
shutdown endpoints and one acknowledgment of each kind. -/
theorem exit_reads_render_before_layout_witness :
    readsBefore samplePipeline.render_shutdown_port
        samplePipeline.layout_shutdown_port
        (samplePipeline.exit true .signaled .closed).2 = true ∧
    recvCount samplePipeline.render_shutdown_port
        (samplePipeline.exit true .signaled .closed).2 = 1 ∧
    recvCount samplePipeline.layout_shutdown_port
        (samplePipeline.exit true .signaled .closed).2 = 1 ∧
    (samplePipeline.exit true .signaled .closed).2 =
      [.scriptTrySend samplePipeline.script_chan
          (.ExitPipelineMsg samplePipeline.id) true,
       .recvOpt samplePipeline.render_shutdown_port (recv_opt .signaled),
       .recvOpt samplePipeline.layout_shutdown_port (recv_opt .closed)] :=
  exit_reads_render_before_layout samplePipeline (by decide) .signaled .closed

/-- C2, as stated, is false on the code: in the fresh-pipeline protocol
(create), the Script task is spawned first (trace position 5), before
Render (position 6) and Layout (position 7), so Render is not spawned
before Script. -/
theorem create_spawn_order_render_first_false :
    spawnIdx .Script
      (Pipeline.create ⟨0⟩ none ⟨"data".data, []⟩ ⟨0, []⟩).2.events = some 5 ∧
    spawnIdx .Render
      (Pipeline.create ⟨0⟩ none ⟨"data".data, []⟩ ⟨0, []⟩).2.events = some 6 ∧
    spawnIdx .Layout
      (Pipeline.create ⟨0⟩ none ⟨"data".data, []⟩ ⟨0, []⟩).2.events = some 7 ∧
    spawnedBefore .Render .Script
      (Pipeline.create ⟨0⟩ none ⟨"data".data, []⟩ ⟨0, []⟩).2.events = false ∧
    spawnedBefore .Layout .Script
      (Pipeline.create ⟨0⟩ none ⟨"data".data, []⟩ ⟨0, []⟩).2.events = false := by
  decide

/-- C2 (amended): in both construction protocols every channel is
allocated before any component is spawned; components are spawned in the
order Script, then Render, then Layout in the fresh-pipeline protocol, and
Render then Layout in the shared-script protocol. -/
theorem construction_allocs_precede_spawns
    (id : PipelineId) (sub : Option SubpageId) (sub2 : SubpageId)
    (sp : Pipeline) (url : Url) (n m : Nat) :
    allocsPrecedeSpawns (Pipeline.create id sub url ⟨n, []⟩).2.events = true ∧
    allocsPrecedeSpawns
      (Pipeline.with_script id sub2 sp url ⟨m, []⟩).2.events = true ∧
    spawnedBefore .Script .Render
      (Pipeline.create id sub url ⟨n, []⟩).2.events = true ∧
    spawnedBefore .Render .Layout
      (Pipeline.create id sub url ⟨n, []⟩).2.events = true ∧
    spawnedBefore .Render .Layout
      (Pipeline.with_script id sub2 sp url ⟨m, []⟩).2.events = true :=
  ⟨rfl, rfl, rfl, rfl, rfl⟩

/-- C3, as stated, is false on the code: load() uses the blocking,
failure-propagating send rather than try_send, so on a pipeline whose
script component is dead the send fails the calling task instead of being
a silent no-op. -/
theorem load_dead_script_not_silent :
    Pipeline.load samplePipeline false =
      .error "sending on a closed channel".data ∧
    (Pipeline.load samplePipeline false).isOk = false :=
  ⟨rfl, rfl⟩

/-- C3 (amended): for every Pipeline, load() performs one blocking send of
a load request carrying the pipeline id and the current url on the script
sender; when the script component is alive this is its only effect, and
when the script component is dead the send fails the calling task (the
error is not swallowed at the send site). -/
theorem load_sends_id_and_url (p : Pipeline) :
    Pipeline.load p true =
      .ok [.scriptSend p.script_chan (.LoadMsg p.id p.url)] ∧
    Pipeline.load p false = .error "sending on a closed channel".data := by
  simp [Pipeline.load, channelSend]

/-- C4: for every pipeline whose script sender is already dead, exit()
performs only the rejected try_send: its trace contains no read of either
shutdown-acknowledgment receiver, so it returns without blocking. -/
theorem exit_dead_script_skips_waiting (p : Pipeline)
    (ra la : AckOutcome) :
    (p.exit false ra la).2 =
      [.scriptTrySend p.script_chan (.ExitPipelineMsg p.id) false] ∧
    recvCount p.render_shutdown_port (p.exit false ra la).2 = 0 ∧
    recvCount p.layout_shutdown_port (p.exit false ra la).2 = 0 := by
  simp [Pipeline.exit, try_send, recvCount]

/-- C5: for every pipeline, alive or dead renderer, each paint-permission
operation is exactly one non-blocking try_send of its control message on
the render sender: no blocking read appears in the trace and no error is
raised (the operations are total and return the one-event trace). -/
theorem paint_permission_single_try_send (p : Pipeline) (alive : Bool) :
    p.grant_paint_permission alive =
      [.renderTrySend p.render_chan .PaintPermissionGranted alive] ∧
    p.revoke_paint_permission alive =
      [.renderTrySend p.render_chan .PaintPermissionRevoked alive] := by
  simp [Pipeline.grant_paint_permission, Pipeline.revoke_paint_permission,
    try_send]

/-- C6: to_sendable() is a pure projection: it returns the
CompositionPipeline built from the pipeline's id, script sender and render
sender (clone is the identity on these values), so two calls on an
unchanged Pipeline yield the same id and the same script and render
endpoints. -/
theorem to_sendable_pure_projection (p : Pipeline) :
    p.to_sendable =
      { id := p.id, script_chan := p.script_chan,
        render_chan := p.render_chan } ∧
    (p.to_sendable).id = p.id ∧
    (p.to_sendable).script_chan = p.script_chan ∧
    (p.to_sendable).render_chan = p.render_chan :=
  ⟨rfl, rfl, rfl, rfl⟩

/-- C9: in both the accepted and the rejected case, exit() offers exactly
one message on a script channel — ExitPipelineMsg with this pipeline's id
on this pipeline's script sender — sends nothing on any render or layout
channel, and returns the Pipeline record unchanged. -/
theorem exit_frame_effects (p : Pipeline) (alive : Bool)
    (ra la : AckOutcome) :
    (p.exit alive ra la).1 = p ∧
    scriptMsgs (p.exit alive ra la).2 =
      [(p.script_chan, .ExitPipelineMsg p.id)] ∧
    renderMsgs (p.exit alive ra la).2 = [] ∧
    layoutSendCount (p.exit alive ra la).2 = 0 := by
  cases alive <;>
    simp [Pipeline.exit, try_send, scriptMsgs, renderMsgs, layoutSendCount]

/-- C7: on input data:text/plain;charset=latin1,hello the loader produces
metadata with content type (text, plain) and charset latin1, then exactly
one payload event whose bytes are the ASCII encoding of hello, then one
successful completion event; on input data: it produces exactly one
error-completion event and no payload event. -/
theorem data_uri_loader_scenarios :
    data_loader.load
        ⟨"data".data, "text/plain;charset=latin1,hello".data⟩ =
      some { metadata :=
               { final_url :=
                   ⟨"data".data, "text/plain;charset=latin1,hello".data⟩,
                 content_type := some ("text".data, "plain".data),
                 charset := some "latin1".data },
             progress := [.Payload [104, 101, 108, 108, 111],
                          .Done .ok] } ∧
    data_loader.load ⟨"data".data, "".data⟩ =
      some { metadata := { final_url := ⟨"data".data, "".data⟩,
                           content_type := none, charset := none },
             progress := [.Done (.err "invalid data uri".data)] } := by
  decide

/-- C8: for every data URI whose content-type part declares a trailing
base64 marker and whose payload part is not valid base64, the loader emits
exactly one error-completion event reporting the invalid encoding, and no
payload event. -/
theorem base64_invalid_payload_error (url : Url) (ct payload : List Char)
    (hscheme : url.scheme = "data".data)
    (hsplit : data_loader.splitFirstComma url.path = some (ct, payload))
    (hb64 : data_loader.listEndsWith ct ";base64".data = true)
    (hbad : data_loader.from_base64 payload = none) :
    (data_loader.load url).map data_loader.LoadResponse.progress =
      some [.Done (.err "non-base64 data uri".data)] := by
  simp [data_loader.load, hscheme, hsplit, hb64, hbad]

/-- Witness for C8 at the concrete URI data:x;base64,@@ whose payload is
not base64. -/
theorem base64_invalid_payload_error_witness :
    (data_loader.load ⟨"data".data, "x;base64,@@".data⟩).map
        data_loader.LoadResponse.progress =
      some [.Done (.err "non-base64 data uri".data)] :=
  base64_invalid_payload_error ⟨"data".data, "x;base64,@@".data⟩
    "x;base64".data "@@".data rfl (by decide) (by decide) (by decide)

/-- Splitting at the first comma keeps everything after that comma,
verbatim, as the second part: the part before the first comma is
comma-free and the second part carries every remaining comma. -/
theorem splitFirstComma_spec (s a b : List Char)
    (h : data_loader.splitFirstComma s = some (a, b)) :
    b = data_loader.afterFirstComma s ∧
    a.count ',' = 0 ∧
    s.count ',' = b.count ',' + 1 := by
  induction s generalizing a b with
  | nil => simp [data_loader.splitFirstComma] at h
  | cons c cs ih =>
    by_cases hc : c = ','
    · subst hc
      simp [data_loader.splitFirstComma] at h
      obtain ⟨ha, hb⟩ := h
      subst ha
      subst hb
      simp [data_loader.afterFirstComma, List.count_cons]
    · simp [data_loader.splitFirstComma, hc] at h
      match hcs : data_loader.splitFirstComma cs with
      | none => simp [hcs] at h
      | some (a', b') =>
        rw [hcs] at h
        simp at h
        obtain ⟨ha, hb⟩ := h
        obtain ⟨hafter, hcount, htotal⟩ := ih a' b' hcs
        subst ha
        subst hb
        refine ⟨?_, ?_, ?_⟩
        · simpa [data_loader.afterFirstComma, hc] using hafter
        · simp [List.count_cons, hc, hcount]
        · simp [List.count_cons, hc, htotal]

/-- C10: only the first comma of the path separates content type from
payload: whenever the path holds two or more commas and the content-type
part does not end in the base64 marker, the split's payload part is the
entire substring after the first comma, it keeps every comma after the
first (one fewer than the whole path, hence at least one), and the loader
emits exactly its bytes as the one payload event, followed by the
successful completion event. -/
theorem payload_after_first_comma (url : Url) (ct payload : List Char)
    (hscheme : url.scheme = "data".data)
    (hcommas : 2 ≤ url.path.count ',')
    (hsplit : data_loader.splitFirstComma url.path = some (ct, payload))
    (hnb : data_loader.listEndsWith ct ";base64".data = false) :
    payload = data_loader.afterFirstComma url.path ∧
    payload.count ',' + 1 = url.path.count ',' ∧
    1 ≤ payload.count ',' ∧
    (data_loader.load url).map data_loader.LoadResponse.progress =
      some [.Payload ((data_loader.afterFirstComma url.path).map Char.toNat),
            .Done .ok] := by
  obtain ⟨hafter, _hct, htotal⟩ := splitFirstComma_spec url.path ct payload hsplit
  refine ⟨hafter, by omega, by omega, ?_⟩
  simp [data_loader.load, hscheme, hsplit, hnb, hafter]

/-- Witness for C10 at the concrete URI data:a,b,c whose path has two
commas. -/
theorem payload_after_first_comma_witness :
    "b,c".data = data_loader.afterFirstComma "a,b,c".data ∧
    ("b,c".data).count ',' + 1 = ("a,b,c".data).count ',' ∧
    1 ≤ ("b,c".data).count ',' ∧
    (data_loader.load ⟨"data".data, "a,b,c".data⟩).map
        data_loader.LoadResponse.progress =
      some [.Payload ((data_loader.afterFirstComma "a,b,c".data).map
              Char.toNat),
            .Done .ok] :=
  payload_after_first_comma ⟨"data".data, "a,b,c".data⟩ "a".data "b,c".data
    rfl (by decide) (by decide) (by decide)
